import Mathlib

/-!
# Verification of the playbook variable read/write layer

Shallow embedding of `playbook_create.py` (`PlaybookCreate`) and
`playbook_read.py` (`PlaybookRead`): a typed read/write contract between a
workflow engine and worker processes, backed by a shared key-value store.

Python strings are modelled as `List Char` (`PyStr`), bytes as `List Nat`
(each entry < 256), and Python runtime values as the inductive `PVal`.
The JSON stdlib codec (`json.dumps`/`json.loads`) is an external collaborator:
the store is modelled as transporting the parsed JSON document (`Json`),
with `loads ∘ dumps = id` absorbed into the transport; the textual printer
`dumpsJ` is still implemented for the places where the rendered text is
observable (embedded substitution of structured values, raw reads).

The companion `Util` variable-grammar helpers of the repository are not part
of the two source files; they are modelled from the spec's grammar
`<origin><producer-id>:<context-id>:<key>!<Type>` (spec section 6).
-/

namespace Playbook

/-- Python `str` modelled as a list of characters. -/
abbrev PyStr := List Char

/-- Python `bytes` modelled as a list of byte values (each < 256). -/
abbrev PyBytes := List Nat

/-- ASCII lower-casing, modelling Python `str.lower()` on the ASCII data
that flows through the type tags. -/
def lowerP (s : PyStr) : PyStr := s.map Char.toLower

/-- Python `str.strip()`: remove leading and trailing whitespace. -/
def pyStrip (s : PyStr) : PyStr :=
  ((s.dropWhile Char.isWhitespace).reverse.dropWhile Char.isWhitespace).reverse

/-- Decimal digits of a natural number (most significant first). -/
def natDigits (n : Nat) : PyStr := Nat.toDigits 10 n

/-- Python `str(int)`. -/
def intRepr (n : Int) : PyStr :=
  if n < 0 then '-' :: natDigits n.natAbs else natDigits n.natAbs

/-! ## Variable grammar

Modelled from the spec: the `Util` grammar helpers
(`is_playbook_variable`, `get_playbook_variable_type`,
`get_playbook_variable_model`, `variable_expansion_pattern`,
`variable_playbook_match`) live outside the two source files.  Grammar:
`<origin:'#'|'&'><producer_id>:<context_id>:<key>!<Type>` where the
producer id is alphabetic, the context id numeric, the key made of word
characters, dots and dashes, and the type tag an alphabetic run. -/

/-- Parsed form of a variable, mirroring the `variable_model` fields the
source consults (`key` and `type`). -/
structure VarModel where
  origin : Char
  producer : PyStr
  contextId : PyStr
  key : PyStr
  vtype : PyStr
deriving DecidableEq, Repr

def isKeyChar (c : Char) : Bool :=
  c.isAlphanum || c == '_' || c == '.' || c == '-'

/-- Parse a variable at the head of the input; on success return the parsed
model, the consumed token text, and the unconsumed remainder. -/
def parseVariableCore (l : List Char) : Option (VarModel × PyStr × List Char) :=
  match l with
  | [] => none
  | origin :: r0 =>
    if origin = '#' ∨ origin = '&' then
      let prod := r0.takeWhile Char.isAlpha
      let r1 := r0.dropWhile Char.isAlpha
      if prod = [] then none else
      match r1 with
      | ':' :: r2 =>
        let ctx := r2.takeWhile Char.isDigit
        let r3 := r2.dropWhile Char.isDigit
        if ctx = [] then none else
        match r3 with
        | ':' :: r4 =>
          let k := r4.takeWhile isKeyChar
          let r5 := r4.dropWhile isKeyChar
          if k = [] then none else
          match r5 with
          | '!' :: r6 =>
            let ty := r6.takeWhile Char.isAlpha
            let r7 := r6.dropWhile Char.isAlpha
            if ty = [] then none else
            some (⟨origin, prod, ctx, k, ty⟩,
                  origin :: prod ++ ':' :: ctx ++ ':' :: k ++ '!' :: ty, r7)
          | _ => none
        | _ => none
      | _ => none
    else none

/-- Model of `Util.get_playbook_variable_model` / full-grammar parse: succeeds only
when the entire text is one variable token. -/
def parseVariable (s : PyStr) : Option VarModel :=
  match parseVariableCore s with
  | some (m, _, []) => some m
  | _ => none

/-- Model of `Util.is_playbook_variable` / the anchored `variable_playbook_match`. -/
def isPlaybookVariable (s : PyStr) : Bool :=
  (parseVariable s).isSome

/-- Model of `Util.get_playbook_variable_type`, modelled from the spec's
`classifyType(text) -> Type?`: the parsed type tag, or none for text that is
not a well-formed variable. -/
def getPlaybookVariableType (s : PyStr) : Option PyStr :=
  (parseVariable s).map VarModel.vtype

/-- Scanner loop of `re.finditer(variable_expansion_pattern, ·)`: try a
match at every position, left to right, skipping over consumed matches
(non-overlapping).  The fuel is the input length; every step consumes at
least one character (a successful parse consumes at least the origin
character), so the fuel never runs out. -/
def scanAux : Nat → List Char → List (VarModel × PyStr)
  | 0, _ => []
  | _ + 1, [] => []
  | n + 1, c :: cs =>
    match parseVariableCore (c :: cs) with
    | some (m, tok, rest) => (m, tok) :: scanAux n rest
    | none => scanAux n cs

/-- All matches of the variable grammar in a string, leftmost first,
non-overlapping, with the matched token text. -/
def scanVariables (l : List Char) : List (VarModel × PyStr) :=
  scanAux l.length l

/-! ## Base64 (the `base64` stdlib collaborator used by the binary paths) -/

/-- The standard base64 alphabet: sextet value to character. -/
def b64Char (n : Nat) : Char :=
  if n < 26 then Char.ofNat (65 + n)          -- A-Z
  else if n < 52 then Char.ofNat (97 + (n - 26))  -- a-z
  else if n < 62 then Char.ofNat (48 + (n - 52))  -- 0-9
  else if n = 62 then '+'
  else '/'

/-- Inverse of `b64Char` (other characters map to 0). -/
def b64Val (c : Char) : Nat :=
  if 65 ≤ c.toNat ∧ c.toNat ≤ 90 then c.toNat - 65
  else if 97 ≤ c.toNat ∧ c.toNat ≤ 122 then c.toNat - 97 + 26
  else if 48 ≤ c.toNat ∧ c.toNat ≤ 57 then c.toNat - 48 + 52
  else if c = '+' then 62
  else if c = '/' then 63
  else 0

/-- Model of `base64.b64encode(·).decode('utf-8')`: bytes to base64 text. -/
def b64encode : PyBytes → PyStr
  | a :: b :: c :: rest =>
    b64Char (a / 4) :: b64Char ((a % 4) * 16 + b / 16) ::
    b64Char ((b % 16) * 4 + c / 64) :: b64Char (c % 64) :: b64encode rest
  | [a, b] =>
    [b64Char (a / 4), b64Char ((a % 4) * 16 + b / 16), b64Char ((b % 16) * 4), '=']
  | [a] => [b64Char (a / 4), b64Char ((a % 4) * 16), '=', '=']
  | [] => []

/-- Model of `base64.b64decode`: base64 text to bytes.  A ragged tail (length not a
multiple of four, which `b64encode` never produces) decodes to nothing. -/
def b64decode : PyStr → PyBytes
  | c1 :: c2 :: c3 :: c4 :: rest =>
    if c3 = '=' then [b64Val c1 * 4 + b64Val c2 / 16]
    else if c4 = '=' then
      [b64Val c1 * 4 + b64Val c2 / 16, b64Val c2 % 16 * 16 + b64Val c3 / 4]
    else
      (b64Val c1 * 4 + b64Val c2 / 16) ::
      (b64Val c2 % 16 * 16 + b64Val c3 / 4) ::
      (b64Val c3 % 4 * 64 + b64Val c4) :: b64decode rest
  | _ => []

theorem b64Val_b64Char : ∀ n < 64, b64Val (b64Char n) = n := by decide

theorem b64Char_ne_eq : ∀ n < 64, b64Char n ≠ '=' := by decide

/-- Quotient of `u * n + v` by `n` when `v < n`. -/
theorem mul_add_div_eq (u v n : Nat) (hv : v < n) : (u * n + v) / n = u := by
  have hn : 0 < n := by omega
  rw [mul_comm u n, Nat.mul_add_div hn, Nat.div_eq_of_lt hv]
  omega

/-- Remainder of `u * n + v` by `n` when `v < n`. -/
theorem mul_add_mod_eq (u v n : Nat) (hv : v < n) : (u * n + v) % n = v := by
  rw [mul_comm u n, Nat.mul_add_mod, Nat.mod_eq_of_lt hv]

/-- Base64 round trip on byte sequences. -/
theorem b64decode_b64encode (b : PyBytes) (hb : ∀ x ∈ b, x < 256) :
    b64decode (b64encode b) = b := by
  induction b using b64encode.induct with
  | case1 a x c rest ih =>
    have ha : a < 256 := hb a (by simp)
    have hx : x < 256 := hb x (by simp)
    have hc : c < 256 := hb c (by simp)
    have h1 : a / 4 < 64 := by omega
    have h2 : (a % 4) * 16 + x / 16 < 64 := by omega
    have h3 : (x % 16) * 4 + c / 64 < 64 := by omega
    have h4 : c % 64 < 64 := by omega
    rw [b64encode, b64decode]
    rw [b64Val_b64Char _ h1, b64Val_b64Char _ h2, b64Val_b64Char _ h3,
      b64Val_b64Char _ h4]
    rw [if_neg (b64Char_ne_eq _ h3), if_neg (b64Char_ne_eq _ h4)]
    rw [ih (fun y hy => hb y (by simp [hy]))]
    rw [mul_add_div_eq _ _ 16 (by omega), mul_add_mod_eq _ _ 16 (by omega),
      mul_add_div_eq _ _ 4 (by omega), mul_add_mod_eq _ _ 4 (by omega)]
    simp only [List.cons.injEq, and_true]
    refine ⟨by omega, by omega, by omega⟩
  | case2 a x =>
    have ha : a < 256 := hb a (by simp)
    have hx : x < 256 := hb x (by simp)
    have h1 : a / 4 < 64 := by omega
    have h2 : (a % 4) * 16 + x / 16 < 64 := by omega
    have h3 : (x % 16) * 4 < 64 := by omega
    rw [b64encode, b64decode]
    rw [b64Val_b64Char _ h1, b64Val_b64Char _ h2, b64Val_b64Char _ h3]
    rw [if_neg (b64Char_ne_eq _ h3), if_pos rfl]
    rw [mul_add_div_eq _ _ 16 (by omega), mul_add_mod_eq _ _ 16 (by omega)]
    simp only [List.cons.injEq, and_true]
    refine ⟨by omega, by omega⟩
  | case3 a =>
    have ha : a < 256 := hb a (by simp)
    have h1 : a / 4 < 64 := by omega
    have h2 : (a % 4) * 16 < 64 := by omega
    rw [b64encode, b64decode]
    rw [b64Val_b64Char _ h1, b64Val_b64Char _ h2]
    rw [if_pos rfl]
    have hdiv : (a % 4 * 16 + 0) / 16 = a % 4 :=
      mul_add_div_eq _ _ 16 (by omega)
    simp only [List.cons.injEq, and_true]
    omega
  | case4 => simp [b64encode, b64decode]

/-! ## JSON documents and Python runtime values

The store contract (`client.create` / `client.read`) transports serialized
JSON text; the stdlib `json` codec (with `object_pairs_hook=OrderedDict`,
preserving key order) is an external collaborator satisfying
`loads ∘ dumps = id`.  The store is therefore modelled as holding the parsed
JSON document; `dumpsJ` below renders the text where it is observable. -/

/-- A JSON document (object keys ordered, as with `OrderedDict`). -/
inductive Json where
  | str (s : PyStr)
  | num (n : Int)
  | bool (b : Bool)
  | null
  | arr (xs : List Json)
  | obj (kvs : List (PyStr × Json))

/-- A Python runtime value as it flows through the two gateway classes.
`StringVariable` (`strV`) is a `str` subclass and `BinaryVariable` a `bytes`
subclass (both only tag provenance); `Sensitive` (`sens`) wraps a
confidential string. -/
inductive PVal where
  | str (s : PyStr)
  | strV (s : PyStr)
  | sens (s : PyStr)
  | bytes (b : PyBytes)
  | pbool (b : Bool)
  | pint (n : Int)
  | list (xs : List PVal)
  | dict (kvs : List (PyStr × PVal))
  | none

/-- Model of `isinstance(v, str)` (true for `str`, `StringVariable` and, in CPython,
not for `Sensitive`). -/
def PVal.isStr : PVal → Bool
  | .str _ | .strV _ => true
  | _ => false

/-- The character content of a string-like value. -/
def PVal.strContent : PVal → PyStr
  | .str s | .strV s | .sens s => s
  | _ => []

/-- The value a JSON document deserializes to (`json.loads`).  The fuel
makes the nested recursion structural; `sizeOf j + 1` always suffices. -/
def jsonToPValF : Nat → Json → PVal
  | 0, _ => .none
  | fuel + 1, j =>
    match j with
    | .str s => .str s
    | .num n => .pint n
    | .bool b => .pbool b
    | .null => .none
    | .arr xs => .list (xs.map (jsonToPValF fuel))
    | .obj kvs => .dict (kvs.map fun kv => (kv.1, jsonToPValF fuel kv.2))

/-- Model of `json.dumps` escaping for string payloads (quote and backslash). -/
def jsonEscape : PyStr → PyStr
  | [] => []
  | c :: cs =>
    if c = '"' ∨ c = '\\' then '\\' :: c :: jsonEscape cs
    else c :: jsonEscape cs

/-- Interleave a separator between rendered items. -/
def joinSep (sep : PyStr) : List PyStr → PyStr
  | [] => []
  | [x] => x
  | x :: xs => x ++ sep ++ joinSep sep xs

/-- Model of `json.dumps` with its default separators `', '` and `': '` (fueled for
structural nested recursion). -/
def dumpsJF : Nat → Json → PyStr
  | 0, _ => []
  | fuel + 1, j =>
    match j with
    | .str s => '"' :: jsonEscape s ++ ['"']
    | .num n => intRepr n
    | .bool b => if b then "true".data else "false".data
    | .null => "null".data
    | .arr xs =>
      '[' :: joinSep (", ".data) (xs.map (dumpsJF fuel)) ++ [']']
    | .obj kvs =>
      '{' :: joinSep (", ".data)
        (kvs.map fun kv =>
          '"' :: jsonEscape kv.1 ++ "\": ".data ++ dumpsJF fuel kv.2) ++ ['}']

/-- Model of `json.dumps` viewed from the Python side: serializable values map to
their JSON document, `bytes` and `Sensitive` raise `TypeError` (`none`).
Fueled for structural nested recursion; `sizeOf v + 1` always suffices. -/
def toJsonF : Nat → PVal → Option Json
  | 0, _ => Option.none
  | fuel + 1, v =>
    match v with
    | .str s | .strV s => some (.str s)
    | .sens _ => Option.none
    | .bytes _ => Option.none
    | .pbool b => some (.bool b)
    | .pint n => some (.num n)
    | .none => some .null
    | .list xs => (xs.mapM (toJsonF fuel)).map .arr
    | .dict kvs =>
      (kvs.mapM fun kv => (toJsonF fuel kv.2).map (kv.1, ·)).map .obj

/-- Python `repr` of a value, as used by `str()` on containers.  Only the
container cases matter (embedded scanning over `str(value)` of a non-string,
source `playbook_read.py` line 218); they render in CPython `repr` style.
Fueled for structural nested recursion. -/
def reprPF : Nat → PVal → PyStr
  | 0, _ => []
  | fuel + 1, v =>
    match v with
    | .str s | .strV s => '\'' :: s ++ ['\'']
    | .sens _ => "**sensitive**".data
    | .bytes b => "b'".data ++ (b.map (fun n => Char.ofNat n)) ++ ['\'']
    | .pbool b => if b then "True".data else "False".data
    | .pint n => intRepr n
    | .none => "None".data
    | .list xs => '[' :: joinSep (", ".data) (xs.map (reprPF fuel)) ++ [']']
    | .dict kvs =>
      '{' :: joinSep (", ".data)
        (kvs.map fun kv => '\'' :: kv.1 ++ "': ".data ++ reprPF fuel kv.2) ++ ['}']

/-- Python `str(value)` as applied before the embedded-variable scan
(`str(value)` at `playbook_read.py` line 218); the fuel only feeds the
`repr` rendering of containers. -/
def pyStrOfF (fuel : Nat) : PVal → PyStr
  | .str s | .strV s => s
  | .sens _ => "**sensitive**".data
  | .pbool b => if b then "True".data else "False".data
  | .pint n => intRepr n
  | .none => "None".data
  | v => reprPF fuel v

/-- Python `str.replace` loop: replace every non-overlapping occurrence of
`pat` (left to right) by `rep`.  An empty pattern never arises (variable
tokens are nonempty); the fuel makes the recursion structural and
`s.length + 1` always suffices (each step consumes at least one
character). -/
def replaceAllF : Nat → PyStr → PyStr → PyStr → PyStr
  | 0, s, _, _ => s
  | fuel + 1, s, pat, rep =>
    match s with
    | [] => []
    | c :: cs =>
      if pat ≠ [] ∧ pat.isPrefixOf (c :: cs) then
        rep ++ replaceAllF fuel (List.drop pat.length (c :: cs)) pat rep
      else
        c :: replaceAllF fuel cs pat rep

/-- Python `str.replace`. -/
def replaceAll (s pat rep : PyStr) : PyStr :=
  replaceAllF (s.length + 1) s pat rep

/-! ## Space-escape transform (`PlaybookRead._process_space_patterns`)

The method applies two `re.sub` passes:
`re.sub(r'(?<!\\)\\s', ' ', string)` and then `re.sub(r'\\\\s', r'\\s', ·)`.
Each pass scans left to right over non-overlapping matches; the negative
lookbehind inspects the character of the *original* text before the match
position. -/

/-- First pass: replace a backslash-`s` pair not preceded by a backslash
with a space.  The flag records whether the original character just before
the current scan position was a backslash (the lookbehind); after a failed
(looked-behind) match the scanner advances past the pair it just
inspected, whose characters cannot start a new match. -/
def spaceSub1 : Bool → List Char → List Char
  | _, [] => []
  | _, [c] => [c]
  | pb, c1 :: c2 :: rest =>
    if c1 = '\\' ∧ c2 = 's' then
      if pb then '\\' :: 's' :: spaceSub1 false rest
      else ' ' :: spaceSub1 false rest
    else c1 :: spaceSub1 (c1 = '\\') (c2 :: rest)

/-- Second pass: replace each backslash-backslash-`s` triple with
backslash-`s`. -/
def spaceSub2 : List Char → List Char
  | [] => []
  | [c] => [c]
  | [c1, c2] => [c1, c2]
  | c1 :: c2 :: c3 :: rest =>
    if c1 = '\\' ∧ c2 = '\\' ∧ c3 = 's' then '\\' :: 's' :: spaceSub2 rest
    else c1 :: spaceSub2 (c2 :: c3 :: rest)

/-- Model of `PlaybookRead._process_space_patterns`. -/
def processSpacePatterns (s : PyStr) : PyStr :=
  spaceSub2 (spaceSub1 false s)

/-- Modelled from the spec: the transform described as a single
left-to-right rewrite, where a backslash-backslash-`s` sequence becomes a
literal backslash-`s`, and a backslash-`s` pair not preceded by a backslash
becomes a single space (the flag carries the lookbehind state). -/
def spaceEscapeSpec : Bool → List Char → List Char
  | _, [] => []
  | _, [c] => [c]
  | pb, [c1, c2] =>
    if c1 = '\\' ∧ c2 = 's' then
      if pb then ['\\', 's'] else [' ']
    else c1 :: spaceEscapeSpec (c1 = '\\') [c2]
  | pb, c1 :: c2 :: c3 :: rest =>
    if c1 = '\\' ∧ c2 = '\\' ∧ c3 = 's' then
      '\\' :: 's' :: spaceEscapeSpec false rest
    else if c1 = '\\' ∧ c2 = 's' then
      if pb then '\\' :: 's' :: spaceEscapeSpec false (c3 :: rest)
      else ' ' :: spaceEscapeSpec false (c3 :: rest)
    else c1 :: spaceEscapeSpec (c1 = '\\') (c2 :: c3 :: rest)

/-! ## The read gateway (`PlaybookRead`)

Keys are modelled as (non-null) strings; a `None` key short-circuits every
read to `None` in the source (`_null_key_check`) and is omitted.  The error
type collects the hard failures the source can raise. -/

/-- Hard errors raised by the gateways. -/
inductive PErr where
  | wrongType      -- RuntimeError from `_check_variable_type`
  | invalidData    -- RuntimeError from per-type shape validation
  | typeError      -- Python TypeError (unserializable or mis-shaped value)
  | keyError       -- missing mandatory dict field (`data['value']`)
  | deser          -- RuntimeError from `_deserialize_data`
  | fuelExhausted  -- Python recursion limit (models unbounded nesting)
  | internal       -- unreachable plumbing of the defunctionalized engine
deriving DecidableEq, Repr

/-- A stored wire value: typed writes commit serialized JSON text (held
here as the parsed document, the codec being the identity transport), while
`PlaybookCreate.raw` commits its payload unencoded. -/
inductive Wire where
  | text (j : Json)
  | raw (v : PVal)

/-- Read-side state: the per-context slice of the key-value store plus the
external platform-variable resolver (`registry.inputs.resolve_variable`)
used for `&`-origin tokens. -/
structure RCfg where
  store : List (PyStr × Wire)
  tcResolver : PyStr → Option PVal

/-- Model of `key_value_store.client.read(context, key)` on the per-context slice. -/
def storeRead (cfg : RCfg) (k : PyStr) : Option Wire :=
  (cfg.store.find? (fun p => p.1 == k)).map (·.2)

/-- Model of `PlaybookRead._check_variable_type`: true when the check raises. -/
def checkVariableTypeR (key : PyStr) (t : PyStr) : Bool :=
  match getPlaybookVariableType key with
  | some ty => ¬ (lowerP ty = lowerP t)
  | Option.none => true

/-- Model of `PlaybookRead._coerce_string_value`. -/
def coerceStringValue : PVal → PVal
  | .pbool b => .str (if b then "true".data else "false".data)
  | .pint n => .str (intRepr n)
  | v => v

/-- Model of `PlaybookRead._decode_binary`: decode bytes to text.  The UTF-8 path
with Latin-1 fallback is modelled as the per-byte (Latin-1) view; UTF-8
multi-byte sequences are outside the modelled flows. -/
def decodeBinary (b : PyBytes) : PyStr :=
  b.map Char.ofNat

/-- Model of `util.is_playbook_variable` applied to a runtime value (false for
non-strings). -/
def isPlaybookVariableV (v : PVal) : Bool :=
  v.isStr && isPlaybookVariable v.strContent

/-- Python `value_ == variable` in `_read_embedded`: string content
equality (a `Sensitive` accumulator never compares equal to the token). -/
def pvalEqTok (v : PVal) (tok : PyStr) : Bool :=
  v.isStr && (v.strContent == tok)

/-- Dict field lookup, Python `d[k]` via `find?`. -/
def lookupKV (kvs : List (PyStr × PVal)) (k : PyStr) : Option PVal :=
  (kvs.find? (fun p => p.1 == k)).map (·.2)

/-- Dict field assignment `d[k] = v` (first occurrence updated). -/
def setKV (kvs : List (PyStr × PVal)) (k : PyStr) (v : PVal) :
    List (PyStr × PVal) :=
  match kvs with
  | [] => []
  | (k', v') :: rest =>
    if k' = k then (k', v) :: rest else (k', v') :: setKV rest k v

/-- Model of `PlaybookRead.binary` (defaults `b64decode=True`, `decode=False`). -/
def binaryR (fuel : Nat) (cfg : RCfg) (key : PyStr) (b64dec : Bool)
    (decode : Bool) : Except PErr (Option PVal) × List PyStr :=
  if checkVariableTypeR key "Binary".data then (.error .wrongType, [])
  else
    let k := pyStrip key
    match storeRead cfg k with
    | Option.none => (.ok Option.none, [k])
    | some (.raw _) => (.error .deser, [k])
    | some (.text j) =>
      let data := jsonToPValF fuel j
      if b64dec && data.isStr then
        if decode then
          (.ok (some (.str (decodeBinary (b64decode data.strContent)))), [k])
        else (.ok (some (.bytes (b64decode data.strContent))), [k])
      else (.ok (some data), [k])

/-- Model of `PlaybookRead.binary_array`. -/
def binaryArrayR (fuel : Nat) (cfg : RCfg) (key : PyStr) (b64dec : Bool)
    (decode : Bool) : Except PErr (Option PVal) × List PyStr :=
  if checkVariableTypeR key "BinaryArray".data then (.error .wrongType, [])
  else
    let k := pyStrip key
    match storeRead cfg k with
    | Option.none => (.ok Option.none, [k])
    | some (.raw _) => (.error .deser, [k])
    | some (.text j) =>
      match jsonToPValF fuel j with
      | .list xs =>
        (.ok (some (.list (xs.map fun d =>
          if b64dec && d.isStr then
            if decode then .str (decodeBinary (b64decode d.strContent))
            else .bytes (b64decode d.strContent)
          else d))), [k])
      | _ => (.error .typeError, [k])  -- iteration over a non-array payload

/-- Model of `PlaybookRead.string_array`. -/
def stringArrayR (fuel : Nat) (cfg : RCfg) (key : PyStr) :
    Except PErr (Option PVal) × List PyStr :=
  if checkVariableTypeR key "StringArray".data then (.error .wrongType, [])
  else
    let k := pyStrip key
    match storeRead cfg k with
    | Option.none => (.ok Option.none, [k])
    | some (.raw _) => (.error .deser, [k])
    | some (.text j) =>
      match jsonToPValF fuel j with
      | .list xs =>
        (.ok (some (.list (xs.map fun d =>
          match d with
          | .none => .none
          | v => .strV (pyStrOfF fuel (coerceStringValue v))))), [k])
      | _ => (.error .typeError, [k])

/-- Model of `PlaybookRead.tc_batch`. -/
def tcBatchR (fuel : Nat) (cfg : RCfg) (key : PyStr) :
    Except PErr (Option PVal) × List PyStr :=
  if checkVariableTypeR key "TCBatch".data then (.error .wrongType, [])
  else
    let k := pyStrip key
    match storeRead cfg k with
    | Option.none => (.ok Option.none, [k])
    | some (.raw _) => (.error .deser, [k])
    | some (.text j) => (.ok (some (jsonToPValF fuel j)), [k])

/-- Model of `PlaybookRead.tc_entity`. -/
def tcEntityR (fuel : Nat) (cfg : RCfg) (key : PyStr) :
    Except PErr (Option PVal) × List PyStr :=
  if checkVariableTypeR key "TCEntity".data then (.error .wrongType, [])
  else
    let k := pyStrip key
    match storeRead cfg k with
    | Option.none => (.ok Option.none, [k])
    | some (.raw _) => (.error .deser, [k])
    | some (.text j) => (.ok (some (jsonToPValF fuel j)), [k])

/-- Model of `PlaybookRead.tc_entity_array`. -/
def tcEntityArrayR (fuel : Nat) (cfg : RCfg) (key : PyStr) :
    Except PErr (Option PVal) × List PyStr :=
  if checkVariableTypeR key "TCEntityArray".data then (.error .wrongType, [])
  else
    let k := pyStrip key
    match storeRead cfg k with
    | Option.none => (.ok Option.none, [k])
    | some (.raw _) => (.error .deser, [k])
    | some (.text j) => (.ok (some (jsonToPValF fuel j)), [k])

/-- Model of `PlaybookRead.raw`: no type check, no deserialization; the wire text of
a typed write is returned as the serialized string. -/
def rawR (fuel : Nat) (cfg : RCfg) (key : PyStr) :
    Except PErr (Option PVal) × List PyStr :=
  let k := pyStrip key
  match storeRead cfg k with
  | Option.none => (.ok Option.none, [k])
  | some (.text j) => (.ok (some (.str (dumpsJF fuel j))), [k])
  | some (.raw v) => (.ok (some v), [k])

/-- Model of `BinaryVariable(value)` wrapping in `any` (bytes keep their content;
other shapes raise or are unreachable in CPython and are left untouched). -/
def toBinV : PVal → PVal
  | .bytes b => .bytes b
  | v => v

/-- Model of `StringVariable(value)` wrapping in `any`. -/
def toStrV : PVal → PVal
  | .str s => .strV s
  | .strV s => .strV s
  | v => v

/-- The result wrapping at the end of `PlaybookRead.any` (source lines
294-303), keyed by the lower-cased variable type. -/
def wrapAny (tyl : PyStr) (v : PVal) : PVal :=
  if tyl = "binary".data then toBinV v
  else if tyl = "binaryarray".data then
    match v with
    | .list xs => .list (xs.map fun x => match x with | .none => .none | y => toBinV y)
    | w => w
  else if tyl = "string".data then toStrV v
  else if tyl = "stringarray".data then
    match v with
    | .list xs => .list (xs.map fun x => match x with | .none => .none | y => toStrV y)
    | w => w
  else v

/-- Argument sum for the defunctionalized read engine: one constructor per
recursive method of `PlaybookRead` (the mutually recursive part of the
class). -/
inductive RCall where
  | anyC (key : PyStr)
  | stringC (key : PyStr) (resolveEmb : Bool)
  | keyValueC (key : PyStr) (resolveEmb : Bool)
  | keyValueArrayC (key : PyStr) (resolveEmb : Bool)
  | kvLoopC (xs : List PVal) (resolveEmb : Bool)
  | processKeyValueC (d : PVal) (resolveEmb : Bool)
  | readEmbeddedC (v : PVal)
  | embedLoopC (ms : List (VarModel × PyStr)) (acc : PVal)

/-- Result sum for the read engine: reads return `value | None` (`opt`),
`_read_embedded` and `_process_key_value` return a value (`val`), and the
`key_value_array` element loop returns a list (`vals`). -/
inductive RVal where
  | opt (v : Option PVal)
  | val (v : PVal)
  | vals (vs : List PVal)

/-- The mutually recursive core of `PlaybookRead`, defunctionalized over
`RCall` so that the recursion is structural in the fuel (every call steps
the fuel down once; exhaustion models Python's `RecursionError`).  Each
arm is the direct translation of the corresponding method; the `internal`
error arms discharge result shapes that the source's call graph can never
produce. -/
def readEngine : Nat → RCfg → RCall → Except PErr RVal × List PyStr
  | 0, _, _ => (.error .fuelExhausted, [])
  | fuel + 1, cfg, call =>
    match call with
    | .anyC key =>
      -- `PlaybookRead.any`: dispatch on the key's type tag, then wrap
      let k := pyStrip key
      match getPlaybookVariableType k with
      | Option.none =>
        match rawR (fuel + 1) cfg k with
        | (r, tr) => (r.map .opt, tr)
      | some ty =>
        let tyl := lowerP ty
        let step : Except PErr (Option PVal) × List PyStr :=
          if tyl = "binary".data then binaryR (fuel + 1) cfg k true false
          else if tyl = "binaryarray".data then
            binaryArrayR (fuel + 1) cfg k true false
          else if tyl = "keyvalue".data then
            match readEngine fuel cfg (.keyValueC k true) with
            | (.ok (.opt v), tr) => (.ok v, tr)
            | (.ok _, tr) => (.error .internal, tr)
            | (.error e, tr) => (.error e, tr)
          else if tyl = "keyvaluearray".data then
            match readEngine fuel cfg (.keyValueArrayC k true) with
            | (.ok (.opt v), tr) => (.ok v, tr)
            | (.ok _, tr) => (.error .internal, tr)
            | (.error e, tr) => (.error e, tr)
          else if tyl = "string".data then
            match readEngine fuel cfg (.stringC k true) with
            | (.ok (.opt v), tr) => (.ok v, tr)
            | (.ok _, tr) => (.error .internal, tr)
            | (.error e, tr) => (.error e, tr)
          else if tyl = "stringarray".data then stringArrayR (fuel + 1) cfg k
          else if tyl = "tcbatch".data then tcBatchR (fuel + 1) cfg k
          else if tyl = "tcentity".data then tcEntityR (fuel + 1) cfg k
          else if tyl = "tcentityarray".data then tcEntityArrayR (fuel + 1) cfg k
          else rawR (fuel + 1) cfg k
        match step with
        | (.ok (some v), tr) => (.ok (.opt (some (wrapAny tyl v))), tr)
        | (.ok Option.none, tr) => (.ok (.opt Option.none), tr)
        | (.error e, tr) => (.error e, tr)
    | .stringC key resolveEmb =>
      -- `PlaybookRead.string` (default `resolve_embedded=True`)
      if checkVariableTypeR key "String".data then (.error .wrongType, [])
      else
        let k := pyStrip key
        match storeRead cfg k with
        | Option.none => (.ok (.opt Option.none), [k])
        | some (.raw _) => (.error .deser, [k])
        | some (.text j) =>
          let data := jsonToPValF (fuel + 1) j
          if resolveEmb && !(isPlaybookVariableV data) then
            match readEngine fuel cfg (.readEmbeddedC data) with
            | (.ok (.val v), tr) =>
              (.ok (.opt (some (coerceStringValue v))), k :: tr)
            | (.ok _, tr) => (.error .internal, k :: tr)
            | (.error e, tr) => (.error e, k :: tr)
          else (.ok (.opt (some (coerceStringValue data))), [k])
    | .keyValueC key resolveEmb =>
      -- `PlaybookRead.key_value`
      if checkVariableTypeR key "KeyValue".data then (.error .wrongType, [])
      else
        let k := pyStrip key
        match storeRead cfg k with
        | Option.none => (.ok (.opt Option.none), [k])
        | some (.raw _) => (.error .deser, [k])
        | some (.text j) =>
          match readEngine fuel cfg
              (.processKeyValueC (jsonToPValF (fuel + 1) j) resolveEmb) with
          | (.ok (.val v), tr) => (.ok (.opt (some v)), k :: tr)
          | (.ok _, tr) => (.error .internal, k :: tr)
          | (.error e, tr) => (.error e, k :: tr)
    | .keyValueArrayC key resolveEmb =>
      -- `PlaybookRead.key_value_array`
      if checkVariableTypeR key "KeyValueArray".data then (.error .wrongType, [])
      else
        let k := pyStrip key
        match storeRead cfg k with
        | Option.none => (.ok (.opt Option.none), [k])
        | some (.raw _) => (.error .deser, [k])
        | some (.text j) =>
          match jsonToPValF (fuel + 1) j with
          | .list xs =>
            match readEngine fuel cfg (.kvLoopC xs resolveEmb) with
            | (.ok (.vals vs), tr) => (.ok (.opt (some (.list vs))), k :: tr)
            | (.ok _, tr) => (.error .internal, k :: tr)
            | (.error e, tr) => (.error e, k :: tr)
          | _ => (.error .typeError, [k])
    | .kvLoopC xs resolveEmb =>
      -- element loop of `key_value_array`
      match xs with
      | [] => (.ok (.vals []), [])
      | d :: rest =>
        match readEngine fuel cfg (.processKeyValueC d resolveEmb) with
        | (.error e, tr) => (.error e, tr)
        | (.ok (.val v), tr) =>
          match readEngine fuel cfg (.kvLoopC rest resolveEmb) with
          | (.ok (.vals vs), tr2) => (.ok (.vals (v :: vs)), tr ++ tr2)
          | (.ok _, tr2) => (.error .internal, tr ++ tr2)
          | (.error e, tr2) => (.error e, tr ++ tr2)
        | (.ok _, tr) => (.error .internal, tr)
    | .processKeyValueC data resolveEmb =>
      -- `PlaybookRead._process_key_value`
      if resolveEmb then
        match data with
        | .dict kvs =>
          match lookupKV kvs "value".data with
          | Option.none => (.error .keyError, [])  -- data['value'] raises
          | some v =>
            if isPlaybookVariableV v then
              match readEngine fuel cfg (.anyC v.strContent) with
              | (.ok (.opt nv), tr) =>
                (.ok (.val (.dict (setKV kvs "value".data
                  (match nv with | some w => w | Option.none => .none)))), tr)
              | (.ok _, tr) => (.error .internal, tr)
              | (.error e, tr) => (.error e, tr)
            else
              match readEngine fuel cfg (.readEmbeddedC v) with
              | (.ok (.val nv), tr) =>
                (.ok (.val (.dict (setKV kvs "value".data nv))), tr)
              | (.ok _, tr) => (.error .internal, tr)
              | (.error e, tr) => (.error e, tr)
        | _ => (.error .typeError, [])  -- data['value'] on a non-dict
      else (.ok (.val data), [])
    | .readEmbeddedC value =>
      -- `PlaybookRead._read_embedded`
      match value with
      | .none => (.ok (.val .none), [])  -- `if value is None: return value`
      | _ =>
        match readEngine fuel cfg
            (.embedLoopC (scanVariables (pyStrOfF (fuel + 1) value)) value) with
        | (.ok (.val v), tr) => (.ok (.val v), tr)
        | (.ok _, tr) => (.error .internal, tr)
        | (.error e, tr) => (.error e, tr)
    | .embedLoopC ms acc =>
      -- the match loop of `_read_embedded` (source lines 218-256)
      match ms with
      | [] => (.ok (.val acc), [])
      | (m, tok) :: rest =>
        let step : Except PErr (Option PVal) × List PyStr :=
          if m.origin = '#' then
            match readEngine fuel cfg (.anyC tok) with
            | (.ok (.opt v), tr) => (.ok v, tr)
            | (.ok _, tr) => (.error .internal, tr)
            | (.error e, tr) => (.error e, tr)
          else if m.origin = '&' then (.ok (cfg.tcResolver tok), [])
          else (.ok Option.none, [])
        match step with
        | (.error e, tr) => (.error e, tr)
        | (.ok v0, tr) =>
          -- Binary types may not be embedded into strings
          let v1 : Option PVal :=
            if m.vtype = "Binary".data ∨ m.vtype = "BinaryArray".data then
              some (.str "<binary>".data)
            else v0
          -- a structured/list value is JSON-stringified; None becomes '<null>'
          let v2 : Option PVal :=
            match v1 with
            | some (.list xs) =>
              (toJsonF (fuel + 1) (.list xs)).map
                (fun j => PVal.str (dumpsJF (fuel + 1) j))
            | some (.dict kvs) =>
              (toJsonF (fuel + 1) (.dict kvs)).map
                (fun j => PVal.str (dumpsJF (fuel + 1) j))
            | some w => some w
            | Option.none => some (.str "<null>".data)
          match v2 with
          | Option.none => (.error .typeError, tr)  -- json.dumps TypeError
          | some v =>
            let acc' : PVal :=
              match v with
              | .sens s =>
                if pvalEqTok acc tok then .sens s
                else if acc.isStr then .str (replaceAll acc.strContent tok s)
                else acc
              | w =>
                if acc.isStr && w.isStr then
                  .str (replaceAll acc.strContent tok w.strContent)
                else acc
            match readEngine fuel cfg (.embedLoopC rest acc') with
            | (r, tr2) => (r, tr ++ tr2)
termination_by structural fuel => fuel

/-- Model of `PlaybookRead.any` (wrapper over the engine). -/
def anyR (fuel : Nat) (cfg : RCfg) (key : PyStr) :
    Except PErr (Option PVal) × List PyStr :=
  match readEngine fuel cfg (.anyC key) with
  | (.ok (.opt v), tr) => (.ok v, tr)
  | (.ok _, tr) => (.error .internal, tr)
  | (.error e, tr) => (.error e, tr)

/-- Model of `PlaybookRead.string` (wrapper over the engine). -/
def stringR (fuel : Nat) (cfg : RCfg) (key : PyStr) (resolveEmb : Bool) :
    Except PErr (Option PVal) × List PyStr :=
  match readEngine fuel cfg (.stringC key resolveEmb) with
  | (.ok (.opt v), tr) => (.ok v, tr)
  | (.ok _, tr) => (.error .internal, tr)
  | (.error e, tr) => (.error e, tr)

/-- Model of `PlaybookRead.key_value` (wrapper over the engine). -/
def keyValueR (fuel : Nat) (cfg : RCfg) (key : PyStr) (resolveEmb : Bool) :
    Except PErr (Option PVal) × List PyStr :=
  match readEngine fuel cfg (.keyValueC key resolveEmb) with
  | (.ok (.opt v), tr) => (.ok v, tr)
  | (.ok _, tr) => (.error .internal, tr)
  | (.error e, tr) => (.error e, tr)

/-- Model of `PlaybookRead.key_value_array` (wrapper over the engine). -/
def keyValueArrayR (fuel : Nat) (cfg : RCfg) (key : PyStr) (resolveEmb : Bool) :
    Except PErr (Option PVal) × List PyStr :=
  match readEngine fuel cfg (.keyValueArrayC key resolveEmb) with
  | (.ok (.opt v), tr) => (.ok v, tr)
  | (.ok _, tr) => (.error .internal, tr)
  | (.error e, tr) => (.error e, tr)

/-- Model of `PlaybookRead._read_embedded` (wrapper over the engine). -/
def readEmbeddedR (fuel : Nat) (cfg : RCfg) (value : PVal) :
    Except PErr PVal × List PyStr :=
  match readEngine fuel cfg (.readEmbeddedC value) with
  | (.ok (.val v), tr) => (.ok v, tr)
  | (.ok _, tr) => (.error .internal, tr)
  | (.error e, tr) => (.error e, tr)

/-- Model of `PlaybookRead.variable` (the generic mixed-input read). -/
def variableR : Nat → RCfg → Option PyStr → Bool →
    Except PErr (Option PVal) × List PyStr
  | 0, _, _, _ => (.error .fuelExhausted, [])
  | fuel + 1, cfg, keyOpt, array =>
    let step : Except PErr (Option PVal) × List PyStr :=
      match keyOpt with
      | Option.none => (.ok Option.none, [])
      | some key =>
        let k := pyStrip key
        if isPlaybookVariable k then anyR fuel cfg k
        else
          -- space patterns are replaced, then the free-form string is
          -- resolved for embedded variables (on the unstripped text)
          match readEmbeddedR fuel cfg (.str (processSpacePatterns key)) with
          | (.ok v, tr) => (.ok (some v), tr)
          | (.error e, tr) => (.error e, tr)
    match step with
    | (.error e, tr) => (.error e, tr)
    | (.ok v, tr) =>
      if array then
        match v with
        | some (.list xs) => (.ok (some (.list xs)), tr)
        | some (.str s) => (.ok (some (.list [.str s])), tr)
        | some (.strV s) => (.ok (some (.list [.strV s])), tr)
        | Option.none => (.ok (some (.list [])), tr)
        | some w => (.ok (some w), tr)
      else (.ok v, tr)

end Playbook

namespace Playbook

/-! ## The write gateway (`PlaybookCreate`)

Write operations are modelled as functions from a write configuration and
arguments to a result plus the list of store calls they issue; the store
state itself is obtained by applying the events (`applyEvents`).  The
`fuel` parameter only feeds the JSON serializer on nested values. -/

/-- Write-side configuration: the requested output variables, the
`TC_PLAYBOOK_WRITE_NULL` environment toggle, and whether the active store
client is the `KeyValueRedis` (in-memory/test) kind. -/
structure CCfg where
  outputVariables : List PyStr
  testMode : Bool
  clientIsKeyValueRedis : Bool

/-- A store call issued by the write gateway: `client.create` or the
direct `redis_client.hset` used by the null-validation shadow write. -/
inductive WEvent where
  | create (key : PyStr) (value : Wire)
  | hset (key : PyStr) (value : PyStr)

/-- Whether an event is a `client.create` call. -/
def WEvent.isCreate : WEvent → Bool
  | .create _ _ => true
  | .hset _ _ => false

/-- Apply issued store calls to a per-context store slice (newest first,
matching hash-set overwrite semantics with `find?` lookup). -/
def applyEvents (store : List (PyStr × Wire)) (evs : List WEvent) :
    List (PyStr × Wire) :=
  evs.foldl
    (fun st e =>
      match e with
      | .create k w => (k, w) :: st
      | .hset k v => (k, .raw (.str v)) :: st)
    store

/-- Model of `PlaybookCreate._get_variable`: a full variable passes through
unchanged; a bare key is looked up in the requested output variables
(first match wins, exact type match when a hint is given). -/
def getVariable (cfg : CCfg) (key : PyStr) (variableType : Option PyStr) :
    Option PyStr :=
  if ¬ isPlaybookVariable key then
    cfg.outputVariables.find? fun ov =>
      match parseVariable ov with
      | some m =>
        m.key == key &&
          (match variableType with
           | Option.none => true
           | some t => m.vtype == t)
      | Option.none => false
  else some key

/-- Python `f'{variable}'` over the optional resolved variable
(`None` renders as the text `None`). -/
def renderVar : Option PyStr → PyStr
  | some s => s
  | Option.none => "None".data

/-- Model of `PlaybookCreate._check_null`: reports whether to abort, together with
the shadow `hset` issued when the test-mode flag is set and the client is
the `KeyValueRedis` kind. -/
def checkNull (cfg : CCfg) (key : PyStr) (value : PVal) : Bool × List WEvent :=
  match value with
  | .none =>
    (true,
      if cfg.testMode && cfg.clientIsKeyValueRedis then
        [.hset (renderVar (getVariable cfg key Option.none) ++
          "_NULL_VALIDATION".data) []]
      else [])
  | _ => (false, [])

/-- Model of `PlaybookCreate._check_requested`: false aborts the write. -/
def checkRequested (cfg : CCfg) (var : PyStr) (whenRequested : Bool) :
    Bool :=
  if whenRequested && !(cfg.outputVariables.contains var) then false
  else true

/-- Model of `PlaybookCreate._check_iterable`: true when the check raises
(`validate` on, and the value is a dict, a string, or not iterable). -/
def checkIterable (value : PVal) (validate : Bool) : Bool :=
  validate &&
    (match value with
     | .dict _ | .str _ | .strV _ => true
     | .pint _ | .pbool _ | .sens _ => true  -- not Iterable
     | .none => true                          -- not Iterable (pre-filtered)
     | .bytes _ | .list _ => false)

/-- Model of `PlaybookCreate._serialize_data` (`json.dumps` wrapped): bytes and
confidential values raise `TypeError`. -/
def serializeData (fuel : Nat) (v : PVal) : Except PErr Json :=
  match toJsonF fuel v with
  | some j => .ok j
  | Option.none => .error .typeError

/-- Model of `PlaybookCreate._create_data`: `client.create(context, key.strip(), ·)`
(the returned count is modelled as 1). -/
def createData (key : PyStr) (w : Wire) : Except PErr (Option Int) × List WEvent :=
  (.ok (some 1), [.create (pyStrip key) w])

/-- Model of `PlaybookCreate._process_object_types` (`BaseModel` inputs are
collapsed to their dict form in this embedding). -/
def processObjectTypes (value : PVal) (validate : Bool) (allowNone : Bool) :
    Except PErr PVal :=
  let ok : Bool :=
    match value with
    | .dict _ => true
    | .none => allowNone
    | _ => false
  if validate && !ok then .error .invalidData else .ok value

/-- Model of `PlaybookCreate.is_key_value`. -/
def isKeyValue : PVal → Bool
  | .dict kvs => (lookupKV kvs "key".data).isSome && (lookupKV kvs "value".data).isSome
  | _ => false

/-- Model of `PlaybookCreate.is_tc_entity`. -/
def isTcEntity : PVal → Bool
  | .dict kvs =>
    (lookupKV kvs "id".data).isSome && (lookupKV kvs "value".data).isSome &&
      (lookupKV kvs "type".data).isSome
  | _ => false

/-- Model of `PlaybookCreate.is_tc_batch` (`indicator` and `group`, when present,
must be sequences; they default to empty lists). -/
def isTcBatch : PVal → Bool
  | .dict kvs =>
    (match lookupKV kvs "indicator".data with
     | Option.none => true
     | some (.list _) => true
     | some _ => false) &&
    (match lookupKV kvs "group".data with
     | Option.none => true
     | some (.list _) => true
     | some _ => false)
  | _ => false

/-- Model of `PlaybookCreate.string`. -/
def stringW (fuel : Nat) (cfg : CCfg) (key : PyStr) (value : PVal)
    (validate : Bool) (whenRequested : Bool) :
    Except PErr (Option Int) × List WEvent :=
  match checkNull cfg key value with
  | (true, evs) => (.ok Option.none, evs)
  | (false, _) =>
    match getVariable cfg key (some "String".data) with
    | Option.none => (.ok Option.none, [])
    | some var =>
      if checkRequested cfg var whenRequested = false then
        (.ok Option.none, [])
      else if checkVariableTypeR var "String".data then
        (.error .wrongType, [])
      else
        let value := coerceStringValue value
        if validate && !value.isStr then (.error .invalidData, [])
        else
          match serializeData fuel value with
          | .error e => (.error e, [])
          | .ok j => createData var (.text j)

/-- Model of `PlaybookCreate.binary`: base64-encode, decode to text, serialize. -/
def binaryW (fuel : Nat) (cfg : CCfg) (key : PyStr) (value : PVal)
    (validate : Bool) (whenRequested : Bool) :
    Except PErr (Option Int) × List WEvent :=
  match checkNull cfg key value with
  | (true, evs) => (.ok Option.none, evs)
  | (false, _) =>
    match getVariable cfg key (some "Binary".data) with
    | Option.none => (.ok Option.none, [])
    | some var =>
      if checkRequested cfg var whenRequested = false then
        (.ok Option.none, [])
      else if checkVariableTypeR var "Binary".data then
        (.error .wrongType, [])
      else
        match value with
        | .bytes b =>
          match serializeData fuel (.str (b64encode b)) with
          | .error e => (.error e, [])
          | .ok j => createData var (.text j)
        | _ =>
          if validate then (.error .invalidData, [])
          else (.error .typeError, [])  -- base64.b64encode on a non-bytes

/-- Model of `PlaybookCreate.binary_array` (the iterable check precedes variable
resolution in the source). -/
def binaryArrayW (fuel : Nat) (cfg : CCfg) (key : PyStr) (value : PVal)
    (validate : Bool) (whenRequested : Bool) :
    Except PErr (Option Int) × List WEvent :=
  match checkNull cfg key value with
  | (true, evs) => (.ok Option.none, evs)
  | (false, _) =>
    if checkIterable value validate then (.error .invalidData, [])
    else
      match getVariable cfg key (some "BinaryArray".data) with
      | Option.none => (.ok Option.none, [])
      | some var =>
        if checkRequested cfg var whenRequested = false then
          (.ok Option.none, [])
        else if checkVariableTypeR var "BinaryArray".data then
          (.error .wrongType, [])
        else
          match value with
          | .list xs =>
            let step := xs.mapM fun v =>
              match v with
              | .none => Except.ok PVal.none
              | .bytes b => Except.ok (PVal.str (b64encode b))
              | _ =>
                if validate then Except.error PErr.invalidData
                else Except.error PErr.typeError
            match step with
            | .error e => (.error e, [])
            | .ok encoded =>
              match serializeData fuel (.list encoded) with
              | .error e => (.error e, [])
              | .ok j => createData var (.text j)
          | _ => (.error .typeError, [])  -- iteration over a non-list

/-- Model of `PlaybookCreate.key_value`. -/
def keyValueW (fuel : Nat) (cfg : CCfg) (key : PyStr) (value : PVal)
    (validate : Bool) (whenRequested : Bool) :
    Except PErr (Option Int) × List WEvent :=
  match checkNull cfg key value with
  | (true, evs) => (.ok Option.none, evs)
  | (false, _) =>
    match getVariable cfg key (some "KeyValue".data) with
    | Option.none => (.ok Option.none, [])
    | some var =>
      if checkRequested cfg var whenRequested = false then
        (.ok Option.none, [])
      else if checkVariableTypeR var "KeyValue".data then
        (.error .wrongType, [])
      else
        match processObjectTypes value validate false with
        | .error e => (.error e, [])
        | .ok v =>
          if validate && !isKeyValue v then (.error .invalidData, [])
          else
            match serializeData fuel v with
            | .error e => (.error e, [])
            | .ok j => createData var (.text j)

/-- Model of `PlaybookCreate.key_value_array` (null entries are let through the
object-type check but still fail the shape check when validating). -/
def keyValueArrayW (fuel : Nat) (cfg : CCfg) (key : PyStr) (value : PVal)
    (validate : Bool) (whenRequested : Bool) :
    Except PErr (Option Int) × List WEvent :=
  match checkNull cfg key value with
  | (true, evs) => (.ok Option.none, evs)
  | (false, _) =>
    if checkIterable value validate then (.error .invalidData, [])
    else
      match getVariable cfg key (some "KeyValueArray".data) with
      | Option.none => (.ok Option.none, [])
      | some var =>
        if checkRequested cfg var whenRequested = false then
          (.ok Option.none, [])
        else if checkVariableTypeR var "KeyValueArray".data then
          (.error .wrongType, [])
        else
          match value with
          | .list xs =>
            let step := xs.mapM fun v =>
              match processObjectTypes v validate true with
              | .error e => Except.error e
              | .ok v2 =>
                if validate && !isKeyValue v2 then Except.error PErr.invalidData
                else Except.ok v2
            match step with
            | .error e => (.error e, [])
            | .ok vs =>
              match serializeData fuel (.list vs) with
              | .error e => (.error e, [])
              | .ok j => createData var (.text j)
          | _ => (.error .typeError, [])

/-- Model of `PlaybookCreate.string_array`. -/
def stringArrayW (fuel : Nat) (cfg : CCfg) (key : PyStr) (value : PVal)
    (validate : Bool) (whenRequested : Bool) :
    Except PErr (Option Int) × List WEvent :=
  match checkNull cfg key value with
  | (true, evs) => (.ok Option.none, evs)
  | (false, _) =>
    if checkIterable value validate then (.error .invalidData, [])
    else
      match getVariable cfg key (some "StringArray".data) with
      | Option.none => (.ok Option.none, [])
      | some var =>
        if checkRequested cfg var whenRequested = false then
          (.ok Option.none, [])
        else if checkVariableTypeR var "StringArray".data then
          (.error .wrongType, [])
        else
          match value with
          | .list xs =>
            let step := xs.mapM fun v =>
              let v2 := coerceStringValue v
              if validate &&
                  !(match v2 with
                    | .none => true
                    | w => w.isStr) then
                Except.error PErr.invalidData
              else Except.ok v2
            match step with
            | .error e => (.error e, [])
            | .ok vs =>
              match serializeData fuel (.list vs) with
              | .error e => (.error e, [])
              | .ok j => createData var (.text j)
          | _ => (.error .typeError, [])

/-- Model of `PlaybookCreate.tc_batch`. -/
def tcBatchW (fuel : Nat) (cfg : CCfg) (key : PyStr) (value : PVal)
    (validate : Bool) (whenRequested : Bool) :
    Except PErr (Option Int) × List WEvent :=
  match checkNull cfg key value with
  | (true, evs) => (.ok Option.none, evs)
  | (false, _) =>
    match getVariable cfg key (some "TCBatch".data) with
    | Option.none => (.ok Option.none, [])
    | some var =>
      if checkRequested cfg var whenRequested = false then
        (.ok Option.none, [])
      else if checkVariableTypeR var "TCBatch".data then
        (.error .wrongType, [])
      else
        match processObjectTypes value validate false with
        | .error e => (.error e, [])
        | .ok v =>
          if validate && !isTcBatch v then (.error .invalidData, [])
          else
            match serializeData fuel v with
            | .error e => (.error e, [])
            | .ok j => createData var (.text j)

/-- Model of `PlaybookCreate.tc_entity`. -/
def tcEntityW (fuel : Nat) (cfg : CCfg) (key : PyStr) (value : PVal)
    (validate : Bool) (whenRequested : Bool) :
    Except PErr (Option Int) × List WEvent :=
  match checkNull cfg key value with
  | (true, evs) => (.ok Option.none, evs)
  | (false, _) =>
    match getVariable cfg key (some "TCEntity".data) with
    | Option.none => (.ok Option.none, [])
    | some var =>
      if checkRequested cfg var whenRequested = false then
        (.ok Option.none, [])
      else if checkVariableTypeR var "TCEntity".data then
        (.error .wrongType, [])
      else
        match processObjectTypes value validate false with
        | .error e => (.error e, [])
        | .ok v =>
          if validate && !isTcEntity v then (.error .invalidData, [])
          else
            match serializeData fuel v with
            | .error e => (.error e, [])
            | .ok j => createData var (.text j)

/-- Model of `PlaybookCreate.tc_entity_array`. -/
def tcEntityArrayW (fuel : Nat) (cfg : CCfg) (key : PyStr) (value : PVal)
    (validate : Bool) (whenRequested : Bool) :
    Except PErr (Option Int) × List WEvent :=
  match checkNull cfg key value with
  | (true, evs) => (.ok Option.none, evs)
  | (false, _) =>
    if checkIterable value validate then (.error .invalidData, [])
    else
      match getVariable cfg key (some "TCEntityArray".data) with
      | Option.none => (.ok Option.none, [])
      | some var =>
        if checkRequested cfg var whenRequested = false then
          (.ok Option.none, [])
        else if checkVariableTypeR var "TCEntityArray".data then
          (.error .wrongType, [])
        else
          match value with
          | .list xs =>
            let step := xs.mapM fun v =>
              match processObjectTypes v validate true with
              | .error e => Except.error e
              | .ok v2 =>
                if validate && !isTcEntity v2 then Except.error PErr.invalidData
                else Except.ok v2
            match step with
            | .error e => (.error e, [])
            | .ok vs =>
              match serializeData fuel (.list vs) with
              | .error e => (.error e, [])
              | .ok j => createData var (.text j)
          | _ => (.error .typeError, [])

/-- Model of `PlaybookCreate.raw`: only the null check, then an unencoded commit;
the `_validate` and `_when_requested` parameters are unused in the
source. -/
def rawW (cfg : CCfg) (key : PyStr) (value : PVal)
    (_validate : Bool) (_whenRequested : Bool) :
    Except PErr (Option Int) × List WEvent :=
  match checkNull cfg key value with
  | (true, evs) => (.ok Option.none, evs)
  | (false, _) => createData key (.raw value)

end Playbook

namespace Playbook

/-! ## Theorems -/

/-- Head of the first space-sub pass under a backslash lookbehind: the
first input character always survives (no match can fire at it). -/
theorem spaceSub1_true_head (c : Char) (rest : List Char) :
    ∃ Y, spaceSub1 true (c :: rest) = c :: Y := by
  match rest with
  | [] => exact ⟨[], rfl⟩
  | r :: rs =>
    by_cases h : c = '\\' ∧ r = 's'
    · refine ⟨'s' :: spaceSub1 false rs, ?_⟩
      rw [spaceSub1, if_pos h, if_pos rfl, h.1]
    · exact ⟨spaceSub1 (c = '\\') (r :: rs), by rw [spaceSub1, if_neg h]⟩

/-- The second space-sub pass commutes with a cons that cannot open a
backslash-backslash-`s` triple. -/
theorem spaceSub2_cons (c : Char) (X : List Char)
    (h : ¬(c = '\\' ∧ X.head? = some '\\' ∧ X.tail.head? = some 's')) :
    spaceSub2 (c :: X) = c :: spaceSub2 X := by
  match X with
  | [] => rfl
  | [x] => rfl
  | x1 :: x2 :: xs =>
    rw [spaceSub2, if_neg]
    intro hc
    exact h ⟨hc.1, by simp [hc.2.1], by simp [hc.2.2]⟩

/-- The two sequential `re.sub` passes of `_process_space_patterns` agree
with the spec's single left-to-right rewrite, for every lookbehind state. -/
theorem spaceSub_eq : ∀ (l : List Char) (pb : Bool),
    spaceSub2 (spaceSub1 pb l) = spaceEscapeSpec pb l
  | [], _ => rfl
  | [_], _ => rfl
  | [c1, c2], pb => by
    by_cases h : c1 = '\\' ∧ c2 = 's'
    · obtain ⟨e1, e2⟩ := h
      subst e1; subst e2
      cases pb <;> rfl
    · rw [spaceSub1, if_neg h, spaceEscapeSpec, if_neg h]
      rfl
  | c1 :: c2 :: c3 :: rest, pb => by
    by_cases h3 : c1 = '\\' ∧ c2 = '\\' ∧ c3 = 's'
    · obtain ⟨e1, e2, e3⟩ := h3
      subst e1; subst e2; subst e3
      have IH := spaceSub_eq rest false
      rw [spaceSub1, if_neg (by simp), spaceSub1, if_pos ⟨rfl, rfl⟩,
        if_pos (by decide)]
      rw [spaceSub2, if_pos ⟨rfl, rfl, rfl⟩,
        spaceEscapeSpec, if_pos ⟨rfl, rfl, rfl⟩, IH]
    · by_cases h2 : c1 = '\\' ∧ c2 = 's'
      · obtain ⟨e1, e2⟩ := h2
        subst e1; subst e2
        have IH := spaceSub_eq (c3 :: rest) false
        rw [spaceSub1, if_pos ⟨rfl, rfl⟩]
        cases pb with
        | true =>
          rw [if_pos rfl]
          rw [spaceSub2_cons _ _ (by simp),
            spaceSub2_cons _ _ (by simp), IH]
          rw [spaceEscapeSpec, if_neg h3, if_pos ⟨rfl, rfl⟩, if_pos rfl]
        | false =>
          rw [if_neg (by simp)]
          rw [spaceSub2_cons _ _ (by simp), IH]
          rw [spaceEscapeSpec, if_neg h3, if_pos ⟨rfl, rfl⟩,
            if_neg (by simp)]
      · rw [spaceSub1, if_neg h2]
        by_cases hc : c1 = '\\'
        · subst hc
          have hbool : (decide (('\\' : Char) = '\\')) = true := by decide
          rw [hbool]
          have hn23 : ¬(c2 = '\\' ∧ c3 = 's') := fun e => h3 ⟨rfl, e.1, e.2⟩
          have IH := spaceSub_eq (c2 :: c3 :: rest) true
          rw [spaceSub2_cons, IH]
          · rw [spaceEscapeSpec, if_neg h3, if_neg h2, hbool]
          · -- no new triple can open at the front of the rewritten tail
            have hX : spaceSub1 true (c2 :: c3 :: rest) =
                c2 :: spaceSub1 (c2 = '\\') (c3 :: rest) := by
              rw [spaceSub1, if_neg hn23]
            rw [hX]
            intro hcond
            have hc2 : c2 = '\\' := by simpa using hcond.2.1
            have hc3 : c3 ≠ 's' := fun e => h3 ⟨rfl, hc2, e⟩
            rw [show (decide (c2 = '\\')) = true by simp [hc2]] at hcond
            obtain ⟨Z, hZ⟩ := spaceSub1_true_head c3 rest
            rw [hZ] at hcond
            exact hc3 (by simpa using hcond.2.2)
        · have hbool : (decide (c1 = '\\')) = false := by simp [hc]
          rw [hbool]
          have IH := spaceSub_eq (c2 :: c3 :: rest) false
          rw [spaceSub2_cons _ _ (by simp [hc]), IH]
          rw [spaceEscapeSpec, if_neg h3, if_neg h2, hbool]

/-! ### Claim theorems -/

/-- Modelled from the spec: `resolve(key, requested, typeHint?)` — a key
already satisfying `isVariable` passes through unchanged; otherwise the
requested set is scanned in declaration order for the first entry whose
bare key matches, with exact type equality required when a hint is given;
no match yields none. -/
def resolveSpec (requested : List PyStr) (key : PyStr) (typeHint : Option PyStr) :
    Option PyStr :=
  if isPlaybookVariable key then some key
  else
    requested.find? fun ov =>
      match parseVariable ov with
      | some m =>
        m.key == key &&
          (match typeHint with
           | Option.none => true
           | some t => m.vtype == t)
      | Option.none => false

/-- C8: key resolution returns a full variable unchanged regardless of any
type hint, and otherwise scans the requested output variables in
declaration order, returning the first entry whose bare key matches (with
exact type equality when a hint is given) and none when no entry
matches — i.e. `_get_variable` refines the spec's `resolve`. -/
theorem c8_key_resolution (cfg : CCfg) (key : PyStr) (hint : Option PyStr) :
    getVariable cfg key hint = resolveSpec cfg.outputVariables key hint := by
  by_cases h : isPlaybookVariable key <;>
    simp [getVariable, resolveSpec, h]

/-- A configuration with an empty store for concrete instantiations. -/
def pathCfg : RCfg :=
  { store := [], tcResolver := fun _ => Option.none }

/-- C9: the space-escape transform rewrites each backslash-`s` pair not
preceded by a backslash to a single space and each
backslash-backslash-`s` triple to a literal backslash-`s` (first
conjunct, as the spec's one-pass rewrite), and it is applied only on the
free-form path of `PlaybookRead.variable`: a playbook-variable key goes
straight to `any` untransformed (second conjunct), while a free-form key
is transformed and then embedded-resolved (third conjunct). -/
theorem c9_space_escape_transform :
    (∀ s : PyStr, processSpacePatterns s = spaceEscapeSpec false s) ∧
    (∀ (fuel : Nat) (cfg : RCfg) (key : PyStr),
      isPlaybookVariable (pyStrip key) = true →
      variableR (fuel + 1) cfg (some key) false = anyR fuel cfg (pyStrip key)) ∧
    (∀ (fuel : Nat) (cfg : RCfg) (key : PyStr) (r : PVal) (tr : List PyStr),
      isPlaybookVariable (pyStrip key) = false →
      readEmbeddedR fuel cfg (.str (processSpacePatterns key)) = (.ok r, tr) →
      variableR (fuel + 1) cfg (some key) false = (.ok (some r), tr)) := by
  refine ⟨fun s => spaceSub_eq s false, ?_, ?_⟩
  · intro fuel cfg key hkey
    simp only [variableR, hkey, if_true, anyR]
    rcases hA : readEngine fuel cfg (.anyC (pyStrip key)) with ⟨r, tr⟩
    rcases r with e | v
    · rfl
    · rcases v with v | v | v <;> rfl
  · intro fuel cfg key r tr hkey hemb
    simp only [variableR, hkey]
    rw [if_neg (by simp [hkey])]
    rw [hemb]
    rfl

/-- Witness for C9 at concrete inputs. -/
theorem c9_space_escape_transform_witness :
    variableR 3 pathCfg (some "#App:1:x!String".data) false =
      anyR 2 pathCfg "#App:1:x!String".data ∧
    variableR 3 pathCfg (some "a\\sb".data) false =
      (.ok (some (.str "a b".data)), []) := by
  constructor
  · have h := c9_space_escape_transform.2.1 2 pathCfg
      "#App:1:x!String".data (by decide)
    rw [show pyStrip "#App:1:x!String".data = "#App:1:x!String".data from
      by decide] at h
    exact h
  · exact c9_space_escape_transform.2.2 2 pathCfg "a\\sb".data
      (.str "a b".data) [] (by decide) rfl

/-- The type-tag check fails for a parsed key whose tag differs
case-insensitively from the expected type. -/
theorem checkVariableTypeR_mismatch {key : PyStr} {m : VarModel} {t : PyStr}
    (hparse : parseVariable key = some m)
    (hlow : lowerP m.vtype ≠ lowerP t) :
    checkVariableTypeR key t = true := by
  simp [checkVariableTypeR, getPlaybookVariableType, hparse, hlow]

/-- C5: reading a non-null key whose type tag differs from the invoked
operation's expected type raises the WrongType validation error, with an
empty store-read trace (the check precedes any store access), for each of
the nine typed read operations. -/
theorem c5_wrong_type_before_read (fuel : Nat) (cfg : RCfg) (key : PyStr)
    (m : VarModel) (hparse : parseVariable key = some m) :
    (lowerP m.vtype ≠ lowerP "Binary".data →
      binaryR fuel cfg key true false = (.error .wrongType, [])) ∧
    (lowerP m.vtype ≠ lowerP "BinaryArray".data →
      binaryArrayR fuel cfg key true false = (.error .wrongType, [])) ∧
    (lowerP m.vtype ≠ lowerP "KeyValue".data →
      keyValueR (fuel + 1) cfg key true = (.error .wrongType, [])) ∧
    (lowerP m.vtype ≠ lowerP "KeyValueArray".data →
      keyValueArrayR (fuel + 1) cfg key true = (.error .wrongType, [])) ∧
    (lowerP m.vtype ≠ lowerP "String".data →
      stringR (fuel + 1) cfg key true = (.error .wrongType, [])) ∧
    (lowerP m.vtype ≠ lowerP "StringArray".data →
      stringArrayR fuel cfg key = (.error .wrongType, [])) ∧
    (lowerP m.vtype ≠ lowerP "TCBatch".data →
      tcBatchR fuel cfg key = (.error .wrongType, [])) ∧
    (lowerP m.vtype ≠ lowerP "TCEntity".data →
      tcEntityR fuel cfg key = (.error .wrongType, [])) ∧
    (lowerP m.vtype ≠ lowerP "TCEntityArray".data →
      tcEntityArrayR fuel cfg key = (.error .wrongType, [])) := by
  refine ⟨fun h => ?_, fun h => ?_, fun h => ?_, fun h => ?_, fun h => ?_,
    fun h => ?_, fun h => ?_, fun h => ?_, fun h => ?_⟩
  · simp [binaryR, checkVariableTypeR_mismatch hparse h]
  · simp [binaryArrayR, checkVariableTypeR_mismatch hparse h]
  · simp [keyValueR, readEngine, checkVariableTypeR_mismatch hparse h]
  · simp [keyValueArrayR, readEngine, checkVariableTypeR_mismatch hparse h]
  · simp [stringR, readEngine, checkVariableTypeR_mismatch hparse h]
  · simp [stringArrayR, checkVariableTypeR_mismatch hparse h]
  · simp [tcBatchR, checkVariableTypeR_mismatch hparse h]
  · simp [tcEntityR, checkVariableTypeR_mismatch hparse h]
  · simp [tcEntityArrayR, checkVariableTypeR_mismatch hparse h]

/-- Witness for C5 at concrete keys. -/
theorem c5_wrong_type_before_read_witness :
    binaryR 3 pathCfg "#App:1:x!String".data true false =
      (.error .wrongType, []) ∧
    binaryArrayR 3 pathCfg "#App:1:x!String".data true false =
      (.error .wrongType, []) ∧
    keyValueR 4 pathCfg "#App:1:x!String".data true = (.error .wrongType, []) ∧
    keyValueArrayR 4 pathCfg "#App:1:x!String".data true =
      (.error .wrongType, []) ∧
    stringR 4 pathCfg "#App:1:x!Binary".data true = (.error .wrongType, []) ∧
    stringArrayR 3 pathCfg "#App:1:x!String".data = (.error .wrongType, []) ∧
    tcBatchR 3 pathCfg "#App:1:x!String".data = (.error .wrongType, []) ∧
    tcEntityR 3 pathCfg "#App:1:x!String".data = (.error .wrongType, []) ∧
    tcEntityArrayR 3 pathCfg "#App:1:x!String".data = (.error .wrongType, []) := by
  have h1 := c5_wrong_type_before_read 3 pathCfg "#App:1:x!String".data
    ⟨'#', "App".data, "1".data, "x".data, "String".data⟩ (by decide)
  have h2 := c5_wrong_type_before_read 3 pathCfg "#App:1:x!Binary".data
    ⟨'#', "App".data, "1".data, "x".data, "Binary".data⟩ (by decide)
  exact ⟨h1.1 (by decide), h1.2.1 (by decide), h1.2.2.1 (by decide),
    h1.2.2.2.1 (by decide), h2.2.2.2.2.1 (by decide),
    h1.2.2.2.2.2.1 (by decide), h1.2.2.2.2.2.2.1 (by decide),
    h1.2.2.2.2.2.2.2.1 (by decide), h1.2.2.2.2.2.2.2.2 (by decide)⟩

/-- The null check passes on any non-null value, issuing no event. -/
theorem checkNull_ne (cfg : CCfg) (key : PyStr) {v : PVal} (hv : v ≠ .none) :
    checkNull cfg key v = (false, []) := by
  cases v <;> first | rfl | exact absurd rfl hv

/-- A variable outside the requested set fails the requested check. -/
theorem checkRequested_false {cfg : CCfg} {var : PyStr}
    (h : cfg.outputVariables.contains var = false) :
    checkRequested cfg var true = false := by
  simp only [checkRequested, h]
  rfl

/-- C2: for every typed write with the default `when_requested=true`, if
the key resolves to a variable absent from the requested output-variable
set, the operation returns none and issues no store call at all (in
particular no `create`), for each of the nine typed write operations
(array operations are stated on list-shaped values, which is what their
preceding iterable check admits). -/
theorem c2_unrequested_write_noop (fuel : Nat) (cfg : CCfg) (key var : PyStr)
    (hreq : cfg.outputVariables.contains var = false) :
    (∀ (v : PVal) (validate : Bool), v ≠ .none →
      getVariable cfg key (some "Binary".data) = some var →
      binaryW fuel cfg key v validate true = (.ok Option.none, [])) ∧
    (∀ (v : PVal) (validate : Bool), v ≠ .none →
      getVariable cfg key (some "String".data) = some var →
      stringW fuel cfg key v validate true = (.ok Option.none, [])) ∧
    (∀ (v : PVal) (validate : Bool), v ≠ .none →
      getVariable cfg key (some "KeyValue".data) = some var →
      keyValueW fuel cfg key v validate true = (.ok Option.none, [])) ∧
    (∀ (v : PVal) (validate : Bool), v ≠ .none →
      getVariable cfg key (some "TCBatch".data) = some var →
      tcBatchW fuel cfg key v validate true = (.ok Option.none, [])) ∧
    (∀ (v : PVal) (validate : Bool), v ≠ .none →
      getVariable cfg key (some "TCEntity".data) = some var →
      tcEntityW fuel cfg key v validate true = (.ok Option.none, [])) ∧
    (∀ (xs : List PVal) (validate : Bool),
      getVariable cfg key (some "BinaryArray".data) = some var →
      binaryArrayW fuel cfg key (.list xs) validate true =
        (.ok Option.none, [])) ∧
    (∀ (xs : List PVal) (validate : Bool),
      getVariable cfg key (some "StringArray".data) = some var →
      stringArrayW fuel cfg key (.list xs) validate true =
        (.ok Option.none, [])) ∧
    (∀ (xs : List PVal) (validate : Bool),
      getVariable cfg key (some "KeyValueArray".data) = some var →
      keyValueArrayW fuel cfg key (.list xs) validate true =
        (.ok Option.none, [])) ∧
    (∀ (xs : List PVal) (validate : Bool),
      getVariable cfg key (some "TCEntityArray".data) = some var →
      tcEntityArrayW fuel cfg key (.list xs) validate true =
        (.ok Option.none, [])) := by
  have hrf := checkRequested_false hreq
  refine ⟨?_, ?_, ?_, ?_, ?_, ?_, ?_, ?_, ?_⟩
  · intro v validate hv hres
    simp [binaryW, checkNull_ne cfg key hv, hres, hrf]
  · intro v validate hv hres
    simp [stringW, checkNull_ne cfg key hv, hres, hrf]
  · intro v validate hv hres
    simp [keyValueW, checkNull_ne cfg key hv, hres, hrf]
  · intro v validate hv hres
    simp [tcBatchW, checkNull_ne cfg key hv, hres, hrf]
  · intro v validate hv hres
    simp [tcEntityW, checkNull_ne cfg key hv, hres, hrf]
  · intro xs validate hres
    simp [binaryArrayW, checkNull_ne cfg key (v := .list xs) (by simp),
      checkIterable, hres, hrf]
  · intro xs validate hres
    simp [stringArrayW, checkNull_ne cfg key (v := .list xs) (by simp),
      checkIterable, hres, hrf]
  · intro xs validate hres
    simp [keyValueArrayW, checkNull_ne cfg key (v := .list xs) (by simp),
      checkIterable, hres, hrf]
  · intro xs validate hres
    simp [tcEntityArrayW, checkNull_ne cfg key (v := .list xs) (by simp),
      checkIterable, hres, hrf]

/-- Witness for C2: a fully-qualified variable key that is not in the
(empty) requested set. -/
theorem c2_unrequested_write_noop_witness :
    binaryW 3 { outputVariables := [], testMode := false,
                clientIsKeyValueRedis := false }
      "#App:1:x!Binary".data (.bytes [1, 2]) true true =
      (.ok Option.none, []) := by
  have h := c2_unrequested_write_noop 3
    { outputVariables := [], testMode := false, clientIsKeyValueRedis := false }
    "#App:1:x!Binary".data "#App:1:x!Binary".data (by decide)
  exact h.1 (.bytes [1, 2]) true (by simp) (by decide)

/-- The events issued by a null-valued write: the shadow
`<variable>_NULL_VALIDATION` hash-set exactly when the test-mode flag is
set and the client is the in-memory/test kind. -/
def shadowEvents (cfg : CCfg) (key : PyStr) : List WEvent :=
  if cfg.testMode && cfg.clientIsKeyValueRedis then
    [.hset (renderVar (getVariable cfg key Option.none) ++
      "_NULL_VALIDATION".data) []]
  else []

/-- C4: a typed write of a null value returns none and issues no
`create`; the single exception is that when the test-mode flag is set and
the store client is the in-memory/test kind, a shadow
`<variable>_NULL_VALIDATION` key is hash-set (and the call still returns
none).  Stated for all ten write operations, with the shadow events
characterized in the trailing conjuncts. -/
theorem c4_null_write (fuel : Nat) (cfg : CCfg) (key : PyStr)
    (validate whenRequested : Bool) :
    stringW fuel cfg key .none validate whenRequested =
      (.ok Option.none, shadowEvents cfg key) ∧
    binaryW fuel cfg key .none validate whenRequested =
      (.ok Option.none, shadowEvents cfg key) ∧
    binaryArrayW fuel cfg key .none validate whenRequested =
      (.ok Option.none, shadowEvents cfg key) ∧
    keyValueW fuel cfg key .none validate whenRequested =
      (.ok Option.none, shadowEvents cfg key) ∧
    keyValueArrayW fuel cfg key .none validate whenRequested =
      (.ok Option.none, shadowEvents cfg key) ∧
    stringArrayW fuel cfg key .none validate whenRequested =
      (.ok Option.none, shadowEvents cfg key) ∧
    tcBatchW fuel cfg key .none validate whenRequested =
      (.ok Option.none, shadowEvents cfg key) ∧
    tcEntityW fuel cfg key .none validate whenRequested =
      (.ok Option.none, shadowEvents cfg key) ∧
    tcEntityArrayW fuel cfg key .none validate whenRequested =
      (.ok Option.none, shadowEvents cfg key) ∧
    rawW cfg key .none validate whenRequested =
      (.ok Option.none, shadowEvents cfg key) ∧
    (∀ e ∈ shadowEvents cfg key, e.isCreate = false) ∧
    ((cfg.testMode && cfg.clientIsKeyValueRedis) = true →
      shadowEvents cfg key =
        [.hset (renderVar (getVariable cfg key Option.none) ++
          "_NULL_VALIDATION".data) []]) ∧
    ((cfg.testMode && cfg.clientIsKeyValueRedis) = false →
      shadowEvents cfg key = []) := by
  refine ⟨rfl, rfl, rfl, rfl, rfl, rfl, rfl, rfl, rfl, rfl, ?_, ?_, ?_⟩
  · intro e he
    by_cases h : cfg.testMode && cfg.clientIsKeyValueRedis <;>
      simp [shadowEvents, h] at he ⊢
    rw [he]
    rfl
  · intro h
    simp [shadowEvents, h]
  · intro h
    simp [shadowEvents, h]

/-- Witness for C4 (the last two conjuncts carry hypotheses): both client
configurations at a concrete key. -/
theorem c4_null_write_witness :
    stringW 3 { outputVariables := ["#App:1:s!String".data], testMode := true,
                clientIsKeyValueRedis := true }
      "s".data .none true true =
      (.ok Option.none,
       [.hset "#App:1:s!String_NULL_VALIDATION".data []]) ∧
    stringW 3 { outputVariables := ["#App:1:s!String".data], testMode := false,
                clientIsKeyValueRedis := true }
      "s".data .none true true = (.ok Option.none, []) := by
  have h1 := c4_null_write 3
    { outputVariables := ["#App:1:s!String".data], testMode := true,
      clientIsKeyValueRedis := true } "s".data true true
  have h2 := c4_null_write 3
    { outputVariables := ["#App:1:s!String".data], testMode := false,
      clientIsKeyValueRedis := true } "s".data true true
  constructor
  · rw [h1.1]
    rw [h1.2.2.2.2.2.2.2.2.2.2.2.1 (by decide)]
    rfl
  · rw [h2.1]
    rw [h2.2.2.2.2.2.2.2.2.2.2.2.2 (by decide)]

/-- C10 counterexample: `raw` commits under the *stripped* key, not the
key as given — writing under `"k "` stores under `"k"`. -/
theorem c10_counterexample :
    rawW { outputVariables := [], testMode := false,
           clientIsKeyValueRedis := false }
      "k ".data (.str "v".data) true true =
      (.ok (some 1), [.create "k".data (.raw (.str "v".data))]) ∧
    "k".data ≠ "k ".data :=
  ⟨rfl, by decide⟩

/-- C10 (amended): for every non-null key and non-null value,
`PlaybookCreate.raw` commits the value unchanged under the
whitespace-stripped key, unconditionally: no variable resolution, no
requested-set check, no type-tag verification, no shape validation,
regardless of the `validate` and `when_requested` arguments (and of the
requested output-variable set, over which the statement is universally
quantified). -/
theorem c10_raw_write_amended (cfg : CCfg) (key : PyStr) (value : PVal)
    (validate whenRequested : Bool) (hv : value ≠ .none) :
    rawW cfg key value validate whenRequested =
      (.ok (some 1), [.create (pyStrip key) (.raw value)]) := by
  cases value <;> first | rfl | exact absurd rfl hv

/-- Witness for C10 (amended) at a concrete input. -/
theorem c10_raw_write_amended_witness :
    rawW { outputVariables := [], testMode := false,
           clientIsKeyValueRedis := false }
      "k".data (.str "v".data) false false =
      (.ok (some 1), [.create "k".data (.raw (.str "v".data))]) := by
  have h := c10_raw_write_amended
    { outputVariables := [], testMode := false, clientIsKeyValueRedis := false }
    "k".data (.str "v".data) false false (by simp)
  rw [h]
  rfl

/-- C3: binary write-then-read round trip — writing any byte sequence
under a requested Binary variable and reading the same variable back with
the default `b64decode=true` yields exactly the original bytes, over any
prior store contents. -/
theorem c3_binary_round_trip (fuel : Nat) (wcfg : CCfg)
    (store0 : List (PyStr × Wire)) (tcres : PyStr → Option PVal)
    (var : PyStr) (m : VarModel) (b : PyBytes)
    (hb : ∀ x ∈ b, x < 256)
    (hparse : parseVariable var = some m)
    (hty : m.vtype = "Binary".data)
    (hreq : wcfg.outputVariables.contains var = true)
    (hstrip : pyStrip var = var) :
    (binaryW (fuel + 1) wcfg var (.bytes b) true true).1 = .ok (some 1) ∧
    (binaryR (fuel + 1)
      { store := applyEvents store0
          (binaryW (fuel + 1) wcfg var (.bytes b) true true).2,
        tcResolver := tcres } var true false).1 = .ok (some (.bytes b)) := by
  have hisv : isPlaybookVariable var = true := by
    simp [isPlaybookVariable, hparse]
  have hgv : getVariable wcfg var (some "Binary".data) = some var := by
    simp [getVariable, hisv]
  have hcr : checkRequested wcfg var true = true := by
    simp only [checkRequested, hreq]
    rfl
  have hct : checkVariableTypeR var "Binary".data = false := by
    simp [checkVariableTypeR, getPlaybookVariableType, hparse, hty]
  have hW : binaryW (fuel + 1) wcfg var (.bytes b) true true =
      (.ok (some 1), [.create var (.text (.str (b64encode b)))]) := by
    simp [binaryW, checkNull, hgv, hcr, hct, serializeData, toJsonF,
      createData, hstrip]
  refine ⟨by rw [hW], ?_⟩
  rw [hW]
  have hsr : storeRead
      { store := (var, Wire.text (.str (b64encode b))) :: store0,
        tcResolver := tcres } var = some (.text (.str (b64encode b))) := by
    simp [storeRead, List.find?]
  simp [binaryR, hct, hstrip, applyEvents, hsr, jsonToPValF, PVal.isStr,
    PVal.strContent, b64decode_b64encode b hb]

/-- Witness for C3 at the spec's example bytes. -/
theorem c3_binary_round_trip_witness :
    (binaryW 3 { outputVariables := ["#App:1:b!Binary".data],
                 testMode := false, clientIsKeyValueRedis := false }
        "#App:1:b!Binary".data (.bytes [0, 1, 255]) true true).1 =
      .ok (some 1) ∧
    (binaryR 3
      { store := applyEvents []
          (binaryW 3 { outputVariables := ["#App:1:b!Binary".data],
                       testMode := false, clientIsKeyValueRedis := false }
            "#App:1:b!Binary".data (.bytes [0, 1, 255]) true true).2,
        tcResolver := fun _ => Option.none }
      "#App:1:b!Binary".data true false).1 = .ok (some (.bytes [0, 1, 255])) :=
  c3_binary_round_trip 2
    { outputVariables := ["#App:1:b!Binary".data],
      testMode := false, clientIsKeyValueRedis := false }
    [] (fun _ => Option.none) "#App:1:b!Binary".data
    ⟨'#', "App".data, "1".data, "b".data, "Binary".data⟩ [0, 1, 255]
    (by decide) (by decide) (by decide) (by decide) (by decide)

/-- Store contents for the C6 scenario: the outer String variable holds a
larger string with an embedded `#`-origin token, which resolves to
`there`. -/
def embedCfg : RCfg :=
  { store :=
      [("#App:1:out!String".data,
        .text (.str "hello #App:1:x!String world".data)),
       ("#App:1:x!String".data, .text (.str "there".data))],
    tcResolver := fun _ => Option.none }

/-- C6: reading a String variable whose stored value is
`"hello #App:1:x!String world"`, where `#App:1:x!String` resolves to
`"there"`, yields `"hello there world"`. -/
theorem c6_embedded_resolution :
    (stringR 20 embedCfg "#App:1:out!String".data true).1 =
      .ok (some (.str "hello there world".data)) := rfl

/-- C7: when the entire input to embedded resolution is exactly one
variable token resolving to a confidential (Sensitive) value, the result
is the confidential wrapper itself; when the token is a proper substring
of a larger string, the confidential value's underlying text is spliced
by literal substring replacement. -/
theorem c7_sensitive_exact_match (fuel : Nat) (cfg : RCfg) (t s : PyStr)
    (m : VarModel)
    (hscan : scanVariables t = [(m, t)])
    (horig : m.origin = '&')
    (hres : cfg.tcResolver t = some (.sens s))
    (hb1 : m.vtype ≠ "Binary".data) (hb2 : m.vtype ≠ "BinaryArray".data) :
    (readEmbeddedR (fuel + 3) cfg (.str t)).1 = .ok (.sens s) ∧
    (∀ u : PyStr, u ≠ t → scanVariables u = [(m, t)] →
      (readEmbeddedR (fuel + 3) cfg (.str u)).1 =
        .ok (.str (replaceAll u t s))) := by
  constructor
  · simp [readEmbeddedR, readEngine, pyStrOfF, hscan, hres, horig, hb1, hb2,
      pvalEqTok, PVal.isStr, PVal.strContent]
  · intro u hu hscanu
    simp [readEmbeddedR, readEngine, pyStrOfF, hscanu, hres, horig, hb1, hb2,
      pvalEqTok, PVal.isStr, PVal.strContent, hu]

/-- A platform-variable resolver carrying one confidential value, for the
C7 instantiation. -/
def sensCfg : RCfg :=
  { store := [],
    tcResolver := fun t =>
      if t = "&App:1:k!KeyChain".data then some (.sens "secret".data)
      else Option.none }

/-- Witness for C7 at a concrete confidential token. -/
theorem c7_sensitive_exact_match_witness :
    (readEmbeddedR 5 sensCfg (.str "&App:1:k!KeyChain".data)).1 =
      .ok (.sens "secret".data) ∧
    (readEmbeddedR 5 sensCfg (.str "x &App:1:k!KeyChain y".data)).1 =
      .ok (.str (replaceAll "x &App:1:k!KeyChain y".data
        "&App:1:k!KeyChain".data "secret".data)) := by
  have h := c7_sensitive_exact_match 2 sensCfg "&App:1:k!KeyChain".data
    "secret".data ⟨'&', "App".data, "1".data, "k".data, "KeyChain".data⟩
    (by decide) (by decide) rfl (by decide) (by decide)
  exact ⟨h.1, h.2 _ (by decide) (by decide)⟩

/-- Inversion for the `_read_embedded` wrapper: a successful wrapped
result comes from a `val`-shaped engine result. -/
theorem readEmbeddedR_ok_inv {fuel : Nat} {cfg : RCfg} {value r : PVal}
    {tr : List PyStr}
    (h : readEmbeddedR fuel cfg value = (.ok r, tr)) :
    readEngine fuel cfg (.readEmbeddedC value) = (.ok (.val r), tr) := by
  unfold readEmbeddedR at h
  rcases hE : readEngine fuel cfg (.readEmbeddedC value) with ⟨res, tr'⟩
  rw [hE] at h
  rcases res with e | rv
  · simp at h
  · rcases rv with v' | v' | v' <;> simp at h
    rw [h.1, h.2]

/-- Store slice for the C1 counterexample: a String variable whose value
embeds a second String variable whose own stored value embeds a third. -/
def nestCfg : RCfg :=
  { store :=
      [("#App:1:out!String".data, .text (.str "A #App:1:a!String B".data)),
       ("#App:1:a!String".data, .text (.str "C #App:1:b!String D".data)),
       ("#App:1:b!String".data, .text (.str "E".data))],
    tcResolver := fun _ => Option.none }

/-- C1 counterexample: reading the outer variable resolves the
doubly-nested token too — the result is `"A C E D B"` (not
`"A C #App:1:b!String D B"` as a one-level resolution would produce), and
the store is read at the doubly-nested key `#App:1:b!String`, i.e. the
value fetched for the embedded token *was* re-scanned. -/
theorem c1_counterexample :
    (stringR 20 nestCfg "#App:1:out!String".data true).1 =
      .ok (some (.str "A C E D B".data)) ∧
    ((stringR 20 nestCfg "#App:1:out!String".data true).2).contains
      "#App:1:b!String".data = true ∧
    "A C E D B".data ≠ "A C #App:1:b!String D B".data :=
  ⟨rfl, by decide, by decide⟩

/-- C1 (amended): embedded resolution is recursive, not one-level.  When
a string contains a single `#`-origin String token whose stored value `v`
is not itself exactly a variable token, the spliced text is the result
`w` of running embedded resolution on `v` (the fetched value is
re-scanned through the full string-read pipeline); only when the fetched
value is exactly a single variable token is it spliced unresolved. -/
theorem c1_one_level_amended (fuel : Nat) (cfg : RCfg) (s t v : PyStr)
    (m : VarModel)
    (hscan : scanVariables s = [(m, t)])
    (horig : m.origin = '#')
    (hty : m.vtype = "String".data)
    (hparse : parseVariable t = some m)
    (hstrip : pyStrip t = t)
    (hstore : storeRead cfg t = some (.text (.str v))) :
    (isPlaybookVariable v = false →
      ∀ (w : PyStr) (tr : List PyStr),
        readEmbeddedR fuel cfg (.str v) = (.ok (.str w), tr) →
        (readEmbeddedR (fuel + 4) cfg (.str s)).1 =
          .ok (.str (replaceAll s t w))) ∧
    (isPlaybookVariable v = true →
      (readEmbeddedR (fuel + 4) cfg (.str s)).1 =
        .ok (.str (replaceAll s t v))) := by
  have hgt : getPlaybookVariableType t = some "String".data := by
    simp [getPlaybookVariableType, hparse, hty]
  have hct : checkVariableTypeR t "String".data = false := by
    simp [checkVariableTypeR, hgt]
  have hl : lowerP "String".data = "string".data := by decide
  constructor
  · intro hnv w tr hinner
    have hE := readEmbeddedR_ok_inv hinner
    simp [readEmbeddedR, readEngine, pyStrOfF, hscan, horig, hty, hstrip,
      hgt, hl, hct, hstore, hE, hnv, jsonToPValF, isPlaybookVariableV,
      PVal.isStr, PVal.strContent, coerceStringValue, wrapAny, toStrV,
      pvalEqTok]
  · intro hv
    simp [readEmbeddedR, readEngine, pyStrOfF, hscan, horig, hty, hstrip,
      hgt, hl, hct, hstore, hv, jsonToPValF, isPlaybookVariableV,
      PVal.isStr, PVal.strContent, coerceStringValue, wrapAny, toStrV,
      pvalEqTok]

/-- Witness for C1 (amended) at concrete inputs: the inner value
`"C #App:1:b!String D"` resolves to `"C E D"` before being spliced. -/
theorem c1_one_level_amended_witness :
    (readEmbeddedR 20 nestCfg (.str "A #App:1:a!String B".data)).1 =
      .ok (.str (replaceAll "A #App:1:a!String B".data
        "#App:1:a!String".data "C E D".data)) := by
  have h := c1_one_level_amended 16 nestCfg "A #App:1:a!String B".data
    "#App:1:a!String".data "C #App:1:b!String D".data
    ⟨'#', "App".data, "1".data, "a".data, "String".data⟩
    (by decide) (by decide) (by decide) (by decide) (by decide) rfl
  exact h.1 (by decide) "C E D".data ["#App:1:b!String".data] rfl

end Playbook


